import Mathlib

/-
Shallow embedding of the document normalizer in src/mcp_server.py
(function fetch_documents, lines 42 to 120: the post-fetch payload
normalization).  JSON values are modelled by the inductive type JValue;
Python dictionaries become association lists in insertion order, Python
exceptions become the error case of Except.
-/

/-- Decoded JSON value, as handled by the Python code.  Numbers are
modelled by integers (no claim depends on floating point); dictionaries
are association lists in insertion order with distinct keys. -/
inductive JValue where
  | null
  | bool (b : Bool)
  | int (n : Int)
  | str (s : String)
  | list (l : List JValue)
  | dict (entries : List (String × JValue))
deriving Repr

/-- Python truthiness of a JSON value: None, False, 0, the empty string,
the empty list and the empty dict are falsy, everything else is truthy. -/
def jtruthy : JValue → Bool
  | .null => false
  | .bool b => b
  | .int n => n != 0
  | .str s => s != ""
  | .list l => !l.isEmpty
  | .dict l => !l.isEmpty

/-- Python expression a or b. -/
def pyOr (a b : JValue) : JValue := if jtruthy a then a else b

def JValue.isDict : JValue → Bool
  | .dict _ => true
  | _ => false

def JValue.isList : JValue → Bool
  | .list _ => true
  | _ => false

def JValue.isNull : JValue → Bool
  | .null => true
  | _ => false

/-- First-match association lookup, the semantics of indexing a Python
dict whose keys are distinct. -/
def dlookup : List (String × JValue) → String → Option JValue
  | [], _ => none
  | (k, v) :: kvs, key => if k = key then some v else dlookup kvs key

/-- Python d.get(key, default) on a dict given as an association list. -/
def dlookupD (kvs : List (String × JValue)) (key : String) (dflt : JValue) : JValue :=
  (dlookup kvs key).getD dflt

/-- Python v.get(key, default) where v has already passed an isinstance
dict check in the source; on a non-dict it yields the default, but every
use site guards it with JValue.isDict exactly as the source guards the
corresponding .get with isinstance. -/
def jgetD (v : JValue) (key : String) (dflt : JValue) : JValue :=
  match v with
  | .dict kvs => dlookupD kvs key dflt
  | _ => dflt

/-- Python v.get(key, default) with no isinstance guard: on a non-dict
value it raises AttributeError, modelled as the error case. -/
def pyGetAttrD (v : JValue) (key : String) (dflt : JValue) : Except String JValue :=
  match v with
  | .dict kvs => .ok (dlookupD kvs key dflt)
  | _ => .error "AttributeError"

/-- Python v.get(key) with no isinstance guard (default None). -/
def pyGetAttr (v : JValue) (key : String) : Except String JValue :=
  pyGetAttrD v key .null

/-- Python iteration (for x in v): lists yield their elements, strings
their characters as one-character strings, dicts their keys; other
values raise TypeError. -/
def pyIterate : JValue → Except String (List JValue)
  | .list l => .ok l
  | .str s => .ok (s.toList.map (fun c => .str (String.singleton c)))
  | .dict kvs => .ok (kvs.map (fun kv => .str kv.1))
  | _ => .error "TypeError"

def backslashChar : Char := Char.ofNat 92

def singleQuoteChar : Char := Char.ofNat 39

def doubleQuoteChar : Char := Char.ofNat 34

/-- Escape of one character inside a Python string repr with the chosen
quote character. -/
def pyEscapeChar (quote : Char) (c : Char) : String :=
  if c = backslashChar then String.singleton backslashChar ++ String.singleton backslashChar
  else if c = quote then String.singleton backslashChar ++ String.singleton quote
  else if c = Char.ofNat 10 then String.singleton backslashChar ++ "n"
  else if c = Char.ofNat 13 then String.singleton backslashChar ++ "r"
  else if c = Char.ofNat 9 then String.singleton backslashChar ++ "t"
  else String.singleton c

/-- Python repr of a string: single quotes unless the string holds a
single quote and no double quote. -/
def pyStrRepr (s : String) : String :=
  let quote := if s.contains singleQuoteChar && !s.contains doubleQuoteChar
               then doubleQuoteChar else singleQuoteChar
  String.singleton quote ++ String.join (s.toList.map (pyEscapeChar quote)) ++ String.singleton quote

mutual

/-- Python repr of a JSON value. -/
def pyRepr : JValue → String
  | .null => "None"
  | .bool true => "True"
  | .bool false => "False"
  | .int n => toString n
  | .str s => pyStrRepr s
  | .list l => "[" ++ String.intercalate ", " (pyReprList l) ++ "]"
  | .dict kvs => "\x7b" ++ String.intercalate ", " (pyReprPairs kvs) ++ "\x7d"

def pyReprList : List JValue → List String
  | [] => []
  | v :: vs => pyRepr v :: pyReprList vs

def pyReprPairs : List (String × JValue) → List String
  | [] => []
  | (k, v) :: kvs => (pyStrRepr k ++ ": " ++ pyRepr v) :: pyReprPairs kvs

end

/-- Python str of a JSON value: a string is returned unchanged, any
other value prints as its repr. -/
def pyStr : JValue → String
  | .str s => s
  | v => pyRepr v

/-- Embeds the comprehension backslash-n dot join of
str(s) for s in raw_text if s is not None, used in all three branches. -/
def joinTextList (l : List JValue) : String :=
  String.intercalate "\n" ((l.filter (fun v => !v.isNull)).map pyStr)

/-- Canonical output record built by fetch_documents.  Field values keep
JValue type because the source can emit non-string values there (for
example a None content_type in the flat-documents branch); content is
always a Python string.  meta is modelled by two optional fields: none
means the key is absent from the meta dict, some v means the key is
present with value v (possibly None). -/
structure CanonDoc where
  id : JValue
  title : JValue
  url : JValue
  content_type : JValue
  content : String
  meta_position : Option JValue
  meta_fieldCount : Option JValue
deriving Repr

/-- Case A per-entry extraction, lines 51 to 68 of src/mcp_server.py.
Evaluation order of the fallible accesses follows the source: the
doc_data.get("text") access of line 52 first, then the dict literal of
lines 57 to 66 left to right. -/
def extractA (d : JValue) : Except String CanonDoc := do
  let doc_data := if d.isDict then pyOr (jgetD d "document" .null) (.dict []) else .dict []
  let raw_text ← pyGetAttrD doc_data "text" (.list [])
  let content :=
    match raw_text with
    | .list l => joinTextList l
    | t => pyStr (pyOr t (.str ""))
  let i1 ← pyGetAttr d "id"
  let i2 ← pyGetAttr doc_data "id"
  let t1 ← pyGetAttr doc_data "title"
  let u1 ← pyGetAttr doc_data "url"
  let ct ← pyGetAttr doc_data "content_type"
  let pos ← pyGetAttr d "position"
  let fc ← pyGetAttr d "fieldCount"
  return { id := pyOr (pyOr i1 i2) (.str ""),
           title := pyOr t1 (.str ""),
           url := pyOr u1 (.str ""),
           content_type := pyOr ct (.str "text/markdown"),
           content := content,
           meta_position := some pos,
           meta_fieldCount := some fc }

/-- Inner loop of case A over the iterated documents value; an exception
in any entry aborts the whole call, as in Python. -/
def caseADocs : List JValue → Except String (List CanonDoc)
  | [] => .ok []
  | d :: ds => do
    let r ← extractA d
    let rs ← caseADocs ds
    return r :: rs

/-- Case A treatment of one service value (lines 47 to 50): non-dict
services are skipped; docs is svc.get("documents", []) or [] and is then
iterated, which raises TypeError on a truthy non-iterable value. -/
def caseASvc (svc_val : JValue) : Except String (List CanonDoc) :=
  match svc_val with
  | .dict kvs => do
      let docs := pyOr (dlookupD kvs "documents" (.list [])) (.list [])
      let ds ← pyIterate docs
      caseADocs ds
  | _ => .ok []

/-- Case A over the values of the result dict, in insertion order. -/
def caseA : List JValue → Except String (List CanonDoc)
  | [] => .ok []
  | v :: vs => do
    let rs ← caseASvc v
    let rest ← caseA vs
    return rs ++ rest

/-- Case B per-entry extraction, lines 75 to 88, for a dict entry d.
doc_data is d.get("document") or d and may be a truthy non-dict, which
the source guards with isinstance at every access. -/
def extractB (dkvs : List (String × JValue)) : CanonDoc :=
  let d := JValue.dict dkvs
  let doc_data := pyOr (dlookupD dkvs "document" .null) d
  let raw_text := if doc_data.isDict then jgetD doc_data "text" (.list []) else .list []
  let content :=
    match raw_text with
    | .list l => joinTextList l
    | t => pyStr (if doc_data.isDict then pyOr t (jgetD doc_data "content" (.str "")) else .str "")
  { id := if doc_data.isDict then pyOr (dlookupD dkvs "id" .null) (jgetD doc_data "id" (.str "")) else .str "",
    title := pyOr (if doc_data.isDict then jgetD doc_data "title" .null else doc_data) (.str ""),
    url := if doc_data.isDict then jgetD doc_data "url" .null else .str "",
    content_type := if doc_data.isDict then jgetD doc_data "content_type" .null else .str "text/markdown",
    content := content,
    meta_position := some (dlookupD dkvs "position" .null),
    meta_fieldCount := some (dlookupD dkvs "fieldCount" .null) }

/-- Case B loop, lines 72 to 89: non-dict entries are skipped. -/
def caseBDocs : List JValue → List CanonDoc
  | [] => []
  | .dict kvs :: ds => extractB kvs :: caseBDocs ds
  | _ :: ds => caseBDocs ds

/-- Content resolution of case C when the content key is absent or None,
lines 100 to 105. -/
def contentFromTextKey (item : List (String × JValue)) : String :=
  match dlookup item "text" with
  | some t =>
      if t.isNull then ""
      else match t with
        | .list l => joinTextList l
        | u => pyStr u
  | none => ""

/-- Case C per-entry extraction, lines 96 to 113, for a dict element.
meta holds only the keys among position and fieldCount present in the
element itself. -/
def extractC (item : List (String × JValue)) : CanonDoc :=
  let content :=
    match dlookup item "content" with
    | some c => if !c.isNull then pyStr c else contentFromTextKey item
    | none => contentFromTextKey item
  { id := dlookupD item "id" (.str ""),
    title := dlookupD item "title" (.str ""),
    url := dlookupD item "url" (.str ""),
    content_type := dlookupD item "content_type" (.str "text/markdown"),
    content := content,
    meta_position := dlookup item "position",
    meta_fieldCount := dlookup item "fieldCount" }

/-- Case C loop, lines 93 to 114: non-dict elements are skipped. -/
def caseCDocs : List JValue → List CanonDoc
  | [] => []
  | .dict kvs :: ds => extractC kvs :: caseCDocs ds
  | _ :: ds => caseCDocs ds

/-- Shape classification and document accumulation of fetch_documents,
lines 42 to 118: case A needs a dict payload whose result key holds a
dict; case B (elif) needs a dict payload whose documents key holds a
list; case C (elif) needs a list payload; everything else logs a warning
and leaves the list empty. -/
def buildDocuments (payload : JValue) : Except String (List CanonDoc) :=
  match payload with
  | .dict kvs =>
      match dlookup kvs "result" with
      | some (.dict rkvs) => caseA (rkvs.map Prod.snd)
      | _ =>
          match dlookup kvs "documents" with
          | some (.list l) => .ok (caseBDocs l)
          | _ => .ok []
  | .list l => .ok (caseCDocs l)
  | _ => .ok []

/-- Python slice documents[:limit] for an arbitrary integer limit: a
nonnegative limit keeps the first limit elements, a negative limit drops
that many elements from the end (clamped at zero). -/
def pySlice {α : Type} (l : List α) (limit : Int) : List α :=
  if 0 ≤ limit then l.take limit.toNat
  else l.take (l.length - (-limit).toNat)

/-- Post-fetch normalization of fetch_documents (lines 42 to 120): build
the document list from the decoded payload, then return documents[:limit].
A Python exception in the traversal is the error case. -/
def fetch_documents_normalize (payload : JValue) (limit : Int) : Except String (List CanonDoc) :=
  match buildDocuments payload with
  | .ok docs => .ok (pySlice docs limit)
  | .error e => .error e

/-- Shape classifier of the unrecognized case, written from the source
conditions of lines 45, 71 and 92: a payload falls through to the
warning branch of line 117 when it is not a dict whose result key holds
a dict, not a dict whose documents key holds a list, and not a list.
The empty list is also counted here, matching the claim wording, since
it produces no documents either. -/
def unrecognizedShape : JValue → Bool
  | .dict kvs =>
      (match dlookup kvs "result" with
       | some (.dict _) => false
       | _ => true) &&
      (match dlookup kvs "documents" with
       | some (.list _) => false
       | _ => true)
  | .list l => l.isEmpty
  | _ => true

/-- Record produced by case A for a documents entry holding only a
document key whose value is the dict item (derived characterization,
proved below against extractA). -/
def serviceItemRecord (item : List (String × JValue)) : CanonDoc :=
  { id := pyOr (dlookupD item "id" .null) (.str ""),
    title := pyOr (dlookupD item "title" .null) (.str ""),
    url := pyOr (dlookupD item "url" .null) (.str ""),
    content_type := pyOr (dlookupD item "content_type" .null) (.str "text/markdown"),
    content :=
      match dlookupD item "text" (.list []) with
      | .list l => joinTextList l
      | t => pyStr (pyOr t (.str "")),
    meta_position := some .null,
    meta_fieldCount := some .null }

/-- Document content title T with text list a, presented in the
service-result shape. -/
def c2payloadA : JValue :=
  .dict [("result", .dict [("s", .dict [("documents",
    .list [.dict [("document", .dict [("title", .str "T"), ("text", .list [.str "a"])])]])])])]

/-- The same document content in the flat-documents shape. -/
def c2payloadB : JValue :=
  .dict [("documents", .list [.dict [("title", .str "T"), ("text", .list [.str "a"])]])]

/-- The same document content in the bare-list shape. -/
def c2payloadC : JValue :=
  .list [.dict [("title", .str "T"), ("text", .list [.str "a"])]]

/-- Record obtained from c2payloadA. -/
def c2recordA : CanonDoc :=
  { id := .str "", title := .str "T", url := .str "",
    content_type := .str "text/markdown", content := "a",
    meta_position := some .null, meta_fieldCount := some .null }

/-- Record obtained from c2payloadB. -/
def c2recordB : CanonDoc :=
  { id := .str "", title := .str "T", url := .null, content_type := .null,
    content := "a", meta_position := some .null, meta_fieldCount := some .null }

/-- Record obtained from c2payloadC. -/
def c2recordC : CanonDoc :=
  { id := .str "", title := .str "T", url := .str "",
    content_type := .str "text/markdown", content := "a",
    meta_position := none, meta_fieldCount := none }

/-- Entries of a dict value; the junk value on non-dicts is never hit
because every use filters on JValue.isDict first. -/
def docEntries : JValue → List (String × JValue)
  | .dict kvs => kvs
  | _ => []

/-
Helper lemmas shared by several claim proofs.
-/

theorem pySlice_nil {α : Type} (limit : Int) : pySlice ([] : List α) limit = [] := by
  unfold pySlice
  split <;> simp

theorem pySlice_zero {α : Type} (l : List α) : pySlice l 0 = [] := by
  unfold pySlice
  simp

theorem pySlice_length_le {α : Type} (l : List α) (limit : Int) (h : 0 ≤ limit) :
    ((pySlice l limit).length : Int) ≤ limit := by
  unfold pySlice
  rw [if_pos h]
  have h1 : (l.take limit.toNat).length ≤ limit.toNat := by
    rw [List.length_take]
    exact Nat.min_le_left _ _
  calc ((l.take limit.toNat).length : Int)
      ≤ (limit.toNat : Int) := by exact_mod_cast h1
    _ = limit := Int.toNat_of_nonneg h

theorem pySlice_of_length_le {α : Type} (l : List α) (limit : Int)
    (h : (l.length : Int) ≤ limit) : pySlice l limit = l := by
  have h0 : 0 ≤ limit := le_trans (Int.natCast_nonneg _) h
  unfold pySlice
  rw [if_pos h0]
  exact List.take_of_length_le (by omega)

theorem normalize_ok_inv (p : JValue) (limit : Int) (l : List CanonDoc)
    (h : fetch_documents_normalize p limit = .ok l) :
    ∃ docs, buildDocuments p = .ok docs ∧ l = pySlice docs limit := by
  unfold fetch_documents_normalize at h
  cases hb : buildDocuments p with
  | ok docs =>
      rw [hb] at h
      exact ⟨docs, rfl, by injection h with h2; exact h2.symm⟩
  | error e =>
      rw [hb] at h
      cases h

theorem normalize_of_build_ok (p : JValue) (limit : Int) (docs : List CanonDoc)
    (h : buildDocuments p = .ok docs) :
    fetch_documents_normalize p limit = .ok (pySlice docs limit) := by
  unfold fetch_documents_normalize
  rw [h]

/-- C1: the claim says the post-fetch normalizer never raises, naming in
particular a service entry whose documents value is a truthy non-list
and a documents list holding non-mapping entries.  The code disagrees:
a non-dict entry of a service documents list reaches the unguarded
d.get("id") of line 58 and raises AttributeError, and a truthy non-list
documents value reaches the for loop of line 50 and raises TypeError.
This theorem evaluates the embedded code at both failing inputs. -/
theorem claim_C1_code_raises :
    fetch_documents_normalize
      (.dict [("result", .dict [("svc", .dict [("documents", .list [.int 5])])])]) 20 =
      .error "AttributeError" ∧
    fetch_documents_normalize
      (.dict [("result", .dict [("svc", .dict [("documents", .int 7)])])]) 20 =
      .error "TypeError" := by
  exact ⟨rfl, rfl⟩

/-- C6: whenever the normalizer returns a list for a nonnegative limit,
that list has at most limit elements, and limit zero forces the empty
list. -/
theorem claim_C6_limit_bound (p : JValue) (N : Int) (l : List CanonDoc)
    (hN : 0 ≤ N) (h : fetch_documents_normalize p N = .ok l) :
    (l.length : Int) ≤ N ∧ (N = 0 → l = []) := by
  obtain ⟨docs, _, hl⟩ := normalize_ok_inv p N l h
  subst hl
  refine ⟨pySlice_length_le docs N hN, ?_⟩
  intro h0
  subst h0
  exact pySlice_zero docs

theorem claim_C6_witness :
    ((List.length ([] : List CanonDoc) : Int) ≤ 2 ∧ ((2 : Int) = 0 → ([] : List CanonDoc) = [])) := by
  exact claim_C6_limit_bound (.str "x") 2 [] (by decide) (by rfl)

theorem buildDocuments_unrecognized (p : JValue)
    (h : unrecognizedShape p = true) :
    buildDocuments p = .ok [] := by
  cases p with
  | null => rfl
  | bool b => rfl
  | int n => rfl
  | str s => rfl
  | list l =>
      have hl : l = [] := List.isEmpty_iff.mp (by simpa [unrecognizedShape] using h)
      subst hl
      rfl
  | dict kvs =>
      simp only [unrecognizedShape, Bool.and_eq_true] at h
      obtain ⟨h1, h2⟩ := h
      simp only [buildDocuments]
      split
      · next rkvs heq =>
          rw [heq] at h1
          simp at h1
      · split
        · next ll heq =>
            rw [heq] at h2
            simp at h2
        · rfl

/-- C7: every unrecognized payload (scalar, None, empty list, or a dict
whose result key does not hold a dict and whose documents key does not
hold a list) normalizes to the empty list with no exception, for every
limit. -/
theorem claim_C7_unrecognized_empty (p : JValue) (limit : Int)
    (h : unrecognizedShape p = true) :
    fetch_documents_normalize p limit = .ok [] := by
  rw [normalize_of_build_ok p limit [] (buildDocuments_unrecognized p h), pySlice_nil]

theorem claim_C7_witness :
    fetch_documents_normalize (.dict [("status", .str "ok")]) 5 = .ok [] := by
  exact claim_C7_unrecognized_empty (.dict [("status", .str "ok")]) 5 (by decide)

theorem pyOr_null (x : JValue) : pyOr .null x = x := rfl

theorem normalize_service_item (item : List (String × JValue)) :
    fetch_documents_normalize
      (.dict [("result", .dict [("s", .dict [("documents",
        .list [.dict [("document", .dict item)]])])])]) 20 =
      .ok [serviceItemRecord item] := by
  cases item <;> rfl

theorem normalize_flat_single (item : List (String × JValue)) :
    fetch_documents_normalize (.dict [("documents", .list [.dict item])]) 20 =
      .ok [extractB item] := by
  rfl

theorem normalize_bare_single (item : List (String × JValue)) :
    fetch_documents_normalize (.list [.dict item]) 20 = .ok [extractC item] := by
  rfl

/-- Case B record for an entry with no document key: the entry itself is
the source of every field. -/
theorem extractB_no_document (item : List (String × JValue))
    (h : dlookup item "document" = none) :
    extractB item =
      { id := pyOr (dlookupD item "id" .null) (dlookupD item "id" (.str "")),
        title := pyOr (dlookupD item "title" .null) (.str ""),
        url := dlookupD item "url" .null,
        content_type := dlookupD item "content_type" .null,
        content :=
          match dlookupD item "text" (.list []) with
          | .list l => joinTextList l
          | t => pyStr (pyOr t (dlookupD item "content" (.str ""))),
        meta_position := some (dlookupD item "position" .null),
        meta_fieldCount := some (dlookupD item "fieldCount" .null) } := by
  unfold extractB
  rw [show dlookupD item "document" .null = .null by rw [dlookupD, h]; rfl]
  rfl

/-- C3 counterexample: in the flat-documents shape a document whose only
field is a present, non-null content is normalized with empty content,
not with its stringified content field; the content key is never read
when text is absent, because raw_text then defaults to the empty list. -/
theorem claim_C3_counterexample :
    fetch_documents_normalize
      (.dict [("documents", .list [.dict [("content", .str "hello")]])]) 20 =
      .ok [{ id := .str "", title := .str "", url := .null, content_type := .null,
             content := "", meta_position := some .null, meta_fieldCount := some .null }] ∧
    pyStr (.str "hello") ≠ "" := by
  exact ⟨rfl, by decide⟩

/-- C3 amended: the content-priority rule of the claim holds only in the
bare-list shape.  In the service-result and flat-documents shapes a
present non-null content field is ignored whenever text is absent: the
output content is then the empty string. -/
theorem claim_C3_amended (c : JValue) (h : c.isNull = false) :
    fetch_documents_normalize (.list [.dict [("id", .str "1"), ("content", c)]]) 20 =
      .ok [{ id := .str "1", title := .str "", url := .str "",
             content_type := .str "text/markdown", content := pyStr c,
             meta_position := none, meta_fieldCount := none }] ∧
    fetch_documents_normalize
      (.dict [("result", .dict [("s", .dict [("documents",
        .list [.dict [("document", .dict [("id", .str "1"), ("content", c)])]])])])]) 20 =
      .ok [{ id := .str "1", title := .str "", url := .str "",
             content_type := .str "text/markdown", content := "",
             meta_position := some .null, meta_fieldCount := some .null }] ∧
    fetch_documents_normalize
      (.dict [("documents", .list [.dict [("id", .str "1"), ("content", c)]])]) 20 =
      .ok [{ id := .str "1", title := .str "", url := .null, content_type := .null,
             content := "", meta_position := some .null, meta_fieldCount := some .null }] := by
  refine ⟨?_, rfl, rfl⟩
  cases c with
  | null => simp [JValue.isNull] at h
  | bool b => rfl
  | int n => rfl
  | str s => rfl
  | list l => rfl
  | dict kvs => rfl

theorem claim_C3_witness :
    (JValue.str "hello").isNull = false ∧
    fetch_documents_normalize
      (.list [.dict [("id", .str "1"), ("content", .str "hello")]]) 20 =
      .ok [{ id := .str "1", title := .str "", url := .str "",
             content_type := .str "text/markdown", content := pyStr (.str "hello"),
             meta_position := none, meta_fieldCount := none }] := by
  exact ⟨rfl, (claim_C3_amended (.str "hello") rfl).1⟩

/-- C4 counterexample: the scenario given by the spec itself (a
flat-documents payload whose nested document lacks content_type) yields
a record whose content_type is None, not the string text/markdown: line
85 of the source has no default in this branch. -/
theorem claim_C4_counterexample :
    fetch_documents_normalize
      (.dict [("documents", .list [.dict [("document",
        .dict [("id", .str "d1"), ("title", .str "T"), ("url", .str "u"),
               ("text", .list [.str "L1", .str "L2"])]), ("position", .int 1)]])]) 20 =
      .ok [{ id := .str "d1", title := .str "T", url := .str "u",
             content_type := .null, content := "L1\nL2",
             meta_position := some (.int 1), meta_fieldCount := some .null }] ∧
    JValue.null ≠ JValue.str "text/markdown" := by
  exact ⟨rfl, by simp⟩

/-- C4 amended: the text/markdown default applies in the service-result
shape (for a falsy content_type) and in the bare-list shape (for an
absent content_type key), but not in the flat-documents shape, where an
absent content_type yields None; content_type is therefore not always a
non-null string. -/
theorem claim_C4_amended (item : List (String × JValue))
    (h1 : dlookup item "content_type" = none)
    (h2 : dlookup item "document" = none) :
    (∃ a, fetch_documents_normalize
        (.dict [("result", .dict [("s", .dict [("documents",
          .list [.dict [("document", .dict item)]])])])]) 20 = .ok [a] ∧
        a.content_type = .str "text/markdown") ∧
    (∃ b, fetch_documents_normalize
        (.dict [("documents", .list [.dict item])]) 20 = .ok [b] ∧
        b.content_type = .null) ∧
    (∃ c, fetch_documents_normalize (.list [.dict item]) 20 = .ok [c] ∧
        c.content_type = .str "text/markdown") := by
  have hD : dlookupD item "content_type" .null = .null := by
    rw [dlookupD, h1]
    rfl
  refine ⟨⟨serviceItemRecord item, normalize_service_item item, ?_⟩,
          ⟨extractB item, normalize_flat_single item, ?_⟩,
          ⟨extractC item, normalize_bare_single item, ?_⟩⟩
  · show pyOr (dlookupD item "content_type" .null) (.str "text/markdown") = .str "text/markdown"
    rw [hD]
    rfl
  · rw [extractB_no_document item h2]
    exact hD
  · show dlookupD item "content_type" (.str "text/markdown") = .str "text/markdown"
    rw [dlookupD, h1]
    rfl

theorem claim_C4_witness :
    dlookup [("title", JValue.str "T")] "content_type" = none ∧
    ((∃ a, fetch_documents_normalize
        (.dict [("result", .dict [("s", .dict [("documents",
          .list [.dict [("document", .dict [("title", JValue.str "T")])]])])])]) 20 = .ok [a] ∧
        a.content_type = .str "text/markdown") ∧
    (∃ b, fetch_documents_normalize
        (.dict [("documents", .list [.dict [("title", JValue.str "T")]])]) 20 = .ok [b] ∧
        b.content_type = .null) ∧
    (∃ c, fetch_documents_normalize (.list [.dict [("title", JValue.str "T")]]) 20 = .ok [c] ∧
        c.content_type = .str "text/markdown")) := by
  exact ⟨rfl, claim_C4_amended [("title", .str "T")] rfl rfl⟩

/-- C5 counterexample: in the service-result shape a document whose
source has a url but no truthy title gets the empty string as title, not
the url: line 59 of the source reads only doc_data.get("title") or the
empty string, with no url fallback. -/
theorem claim_C5_counterexample :
    fetch_documents_normalize
      (.dict [("result", .dict [("s", .dict [("documents",
        .list [.dict [("document", .dict [("url", .str "u")])]])])])]) 20 =
      .ok [{ id := .str "", title := .str "", url := .str "u",
             content_type := .str "text/markdown", content := "",
             meta_position := some .null, meta_fieldCount := some .null }] ∧
    JValue.str "" ≠ JValue.str "u" := by
  exact ⟨rfl, by simp⟩

/-- C5 amended: in the service-result shape a document source without a
title key gets the empty string as title even when a url is present; the
url only ever populates the url field. -/
theorem claim_C5_amended (item : List (String × JValue))
    (h : dlookup item "title" = none) :
    ∃ r, fetch_documents_normalize
        (.dict [("result", .dict [("s", .dict [("documents",
          .list [.dict [("document", .dict item)]])])])]) 20 = .ok [r] ∧
      r.title = .str "" ∧
      r.url = pyOr (dlookupD item "url" .null) (.str "") := by
  refine ⟨serviceItemRecord item, normalize_service_item item, ?_, rfl⟩
  show pyOr (dlookupD item "title" .null) (.str "") = .str ""
  rw [dlookupD, h]
  rfl

theorem claim_C5_witness :
    dlookup [("url", JValue.str "u")] "title" = none ∧
    (∃ r, fetch_documents_normalize
        (.dict [("result", .dict [("s", .dict [("documents",
          .list [.dict [("document", .dict [("url", JValue.str "u")])]])])])]) 20 = .ok [r] ∧
      r.title = .str "" ∧
      r.url = pyOr (dlookupD [("url", JValue.str "u")] "url" .null) (.str "")) := by
  exact ⟨rfl, claim_C5_amended [("url", .str "u")] rfl⟩

/-- C8 counterexample: in the bare-list shape a present non-null content
field wins over a text sequence, so the output content is not the joined
text; the claim as stated (text sequence always joined, in every shape)
fails here. -/
theorem claim_C8_counterexample :
    fetch_documents_normalize
      (.list [.dict [("content", .str "c"), ("text", .list [.str "a"])]]) 20 =
      .ok [{ id := .str "", title := .str "", url := .str "",
             content_type := .str "text/markdown", content := "c",
             meta_position := none, meta_fieldCount := none }] ∧
    String.intercalate "\n" (([JValue.str "a"].filter (fun v => !v.isNull)).map pyStr) = "a" ∧
    "c" ≠ "a" := by
  exact ⟨rfl, rfl, by decide⟩

/-- C8 amended: for a document whose text field is a sequence, the output
content is the backslash-n join of the stringified non-null elements in
the service-result and flat-documents shapes unconditionally, and in the
bare-list shape provided the content key is absent or null. -/
theorem claim_C8_amended (txt : List JValue) :
    fetch_documents_normalize
      (.dict [("result", .dict [("s", .dict [("documents",
        .list [.dict [("document", .dict [("text", .list txt)])]])])])]) 20 =
      .ok [{ id := .str "", title := .str "", url := .str "",
             content_type := .str "text/markdown",
             content := String.intercalate "\n" ((txt.filter (fun v => !v.isNull)).map pyStr),
             meta_position := some .null, meta_fieldCount := some .null }] ∧
    fetch_documents_normalize
      (.dict [("documents", .list [.dict [("text", .list txt)]])]) 20 =
      .ok [{ id := .str "", title := .str "", url := .null, content_type := .null,
             content := String.intercalate "\n" ((txt.filter (fun v => !v.isNull)).map pyStr),
             meta_position := some .null, meta_fieldCount := some .null }] ∧
    fetch_documents_normalize (.list [.dict [("text", .list txt)]]) 20 =
      .ok [{ id := .str "", title := .str "", url := .str "",
             content_type := .str "text/markdown",
             content := String.intercalate "\n" ((txt.filter (fun v => !v.isNull)).map pyStr),
             meta_position := none, meta_fieldCount := none }] ∧
    fetch_documents_normalize (.list [.dict [("content", .null), ("text", .list txt)]]) 20 =
      .ok [{ id := .str "", title := .str "", url := .str "",
             content_type := .str "text/markdown",
             content := String.intercalate "\n" ((txt.filter (fun v => !v.isNull)).map pyStr),
             meta_position := none, meta_fieldCount := none }] := by
  exact ⟨rfl, rfl, rfl, rfl⟩

/-- C9 counterexample: in the bare-list shape an element that itself has
a position key gets that value in meta.position, while the claim says
meta.position must be absent or null when no wrapper exists. -/
theorem claim_C9_counterexample :
    fetch_documents_normalize (.list [.dict [("id", .str "1"), ("position", .int 7)]]) 20 =
      .ok [{ id := .str "1", title := .str "", url := .str "",
             content_type := .str "text/markdown", content := "",
             meta_position := some (.int 7), meta_fieldCount := none }] ∧
    some (JValue.int 7) ≠ (none : Option JValue) ∧
    JValue.int 7 ≠ JValue.null := by
  exact ⟨rfl, by simp, by simp⟩

/-- C9 amended: meta.position carries the outer wrapper position in the
service-result and flat-documents shapes (null when the wrapper lacks
the key), and in the bare-list shape it carries the elements own
position when that key is present and is omitted only when the key is
absent; likewise for meta.fieldCount. -/
theorem claim_C9_amended (posv : JValue) :
    fetch_documents_normalize
      (.dict [("result", .dict [("s", .dict [("documents",
        .list [.dict [("position", posv)]])])])]) 20 =
      .ok [{ id := .str "", title := .str "", url := .str "",
             content_type := .str "text/markdown", content := "",
             meta_position := some posv, meta_fieldCount := some .null }] ∧
    fetch_documents_normalize
      (.dict [("documents", .list [.dict [("position", posv)]])]) 20 =
      .ok [{ id := .str "", title := .str "", url := .null, content_type := .null,
             content := "", meta_position := some posv, meta_fieldCount := some .null }] ∧
    fetch_documents_normalize (.list [.dict [("position", posv)]]) 20 =
      .ok [{ id := .str "", title := .str "", url := .str "",
             content_type := .str "text/markdown", content := "",
             meta_position := some posv, meta_fieldCount := none }] ∧
    fetch_documents_normalize (.list [.dict [("id", .str "1")]]) 20 =
      .ok [{ id := .str "1", title := .str "", url := .str "",
             content_type := .str "text/markdown", content := "",
             meta_position := none, meta_fieldCount := none }] := by
  exact ⟨rfl, rfl, rfl, rfl⟩

/-- C2 counterexample: one document content presented equivalently in the
three shapes normalizes to three pairwise distinct records: the flat
shape yields None url and None content_type where the other shapes yield
defaults, and the bare shape omits the meta keys the wrapped shapes set
to None. -/
theorem claim_C2_counterexample :
    fetch_documents_normalize c2payloadA 20 = .ok [c2recordA] ∧
    fetch_documents_normalize c2payloadB 20 = .ok [c2recordB] ∧
    fetch_documents_normalize c2payloadC 20 = .ok [c2recordC] ∧
    fetch_documents_normalize c2payloadA 20 ≠ fetch_documents_normalize c2payloadB 20 ∧
    fetch_documents_normalize c2payloadA 20 ≠ fetch_documents_normalize c2payloadC 20 ∧
    fetch_documents_normalize c2payloadB 20 ≠ fetch_documents_normalize c2payloadC 20 := by
  have hA : fetch_documents_normalize c2payloadA 20 = .ok [c2recordA] := rfl
  have hB : fetch_documents_normalize c2payloadB 20 = .ok [c2recordB] := rfl
  have hC : fetch_documents_normalize c2payloadC 20 = .ok [c2recordC] := rfl
  refine ⟨hA, hB, hC, ?_, ?_, ?_⟩
  · rw [hA, hB]
    simp [c2recordA, c2recordB]
  · rw [hA, hC]
    simp [c2recordA, c2recordC]
  · rw [hB, hC]
    simp [c2recordB, c2recordC]

theorem joinTextList_map_str (l : List String) :
    joinTextList (l.map JValue.str) = String.intercalate "\n" l := by
  unfold joinTextList
  congr 1
  induction l with
  | nil => rfl
  | cons s rest ih =>
      rw [List.map_cons, List.filter_cons_of_pos (by rfl), List.map_cons, ih]
      rfl

theorem pyOr_str_truthy (s : String) (h : (s != "") = true) (x : JValue) :
    pyOr (.str s) x = .str s := by
  simp [pyOr, jtruthy, h]

/-- C2 amended: for a document with truthy id, title and url and a text
list of strings, the three shapes agree on the id, title, url and
content fields, but the records are not identical: the flat-documents
shape yields None content_type where the others yield the default, and
the bare-list shape omits the meta keys the wrapped shapes set to None. -/
theorem claim_C2_amended (id title url : String) (txt : List String)
    (hid : (id != "") = true) (ht : (title != "") = true) (hu : (url != "") = true) :
    fetch_documents_normalize
      (.dict [("result", .dict [("s", .dict [("documents", .list [.dict [("document",
        .dict [("id", .str id), ("title", .str title), ("url", .str url),
               ("text", .list (txt.map .str))])]])])])]) 20 =
      .ok [{ id := .str id, title := .str title, url := .str url,
             content_type := .str "text/markdown",
             content := String.intercalate "\n" txt,
             meta_position := some .null, meta_fieldCount := some .null }] ∧
    fetch_documents_normalize
      (.dict [("documents", .list [.dict
        [("id", .str id), ("title", .str title), ("url", .str url),
         ("text", .list (txt.map .str))]])]) 20 =
      .ok [{ id := .str id, title := .str title, url := .str url,
             content_type := .null,
             content := String.intercalate "\n" txt,
             meta_position := some .null, meta_fieldCount := some .null }] ∧
    fetch_documents_normalize
      (.list [.dict [("id", .str id), ("title", .str title), ("url", .str url),
                     ("text", .list (txt.map .str))]]) 20 =
      .ok [{ id := .str id, title := .str title, url := .str url,
             content_type := .str "text/markdown",
             content := String.intercalate "\n" txt,
             meta_position := none, meta_fieldCount := none }] := by
  refine ⟨?_, ?_, ?_⟩
  · rw [normalize_service_item]
    simp [serviceItemRecord, dlookupD, dlookup, pyOr_null, pyOr_str_truthy,
          hid, ht, hu, joinTextList_map_str]
  · rw [normalize_flat_single]
    simp [extractB, jgetD, JValue.isDict, dlookupD, dlookup, pyOr_null, pyOr_str_truthy,
          hid, ht, hu, joinTextList_map_str]
  · rw [normalize_bare_single]
    simp [extractC, contentFromTextKey, dlookupD, dlookup, JValue.isNull,
          joinTextList_map_str]

theorem claim_C2_witness :
    (("x" != "") = true) ∧ (("T" != "") = true) ∧ (("u" != "") = true) ∧
    (fetch_documents_normalize
      (.dict [("result", .dict [("s", .dict [("documents", .list [.dict [("document",
        .dict [("id", .str "x"), ("title", .str "T"), ("url", .str "u"),
               ("text", .list (["a"].map .str))])]])])])]) 20 =
      .ok [{ id := .str "x", title := .str "T", url := .str "u",
             content_type := .str "text/markdown",
             content := String.intercalate "\n" ["a"],
             meta_position := some .null, meta_fieldCount := some .null }] ∧
    fetch_documents_normalize
      (.dict [("documents", .list [.dict
        [("id", .str "x"), ("title", .str "T"), ("url", .str "u"),
         ("text", .list (["a"].map .str))]])]) 20 =
      .ok [{ id := .str "x", title := .str "T", url := .str "u",
             content_type := .null,
             content := String.intercalate "\n" ["a"],
             meta_position := some .null, meta_fieldCount := some .null }] ∧
    fetch_documents_normalize
      (.list [.dict [("id", .str "x"), ("title", .str "T"), ("url", .str "u"),
                     ("text", .list (["a"].map .str))]]) 20 =
      .ok [{ id := .str "x", title := .str "T", url := .str "u",
             content_type := .str "text/markdown",
             content := String.intercalate "\n" ["a"],
             meta_position := none, meta_fieldCount := none }]) := by
  exact ⟨by decide, by decide, by decide,
         claim_C2_amended "x" "T" "u" ["a"] (by decide) (by decide) (by decide)⟩

theorem caseBDocs_eq_filter_map (l : List JValue) :
    caseBDocs l = (l.filter JValue.isDict).map (fun v => extractB (docEntries v)) := by
  induction l with
  | nil => rfl
  | cons d ds ih =>
      cases d <;> simp [caseBDocs, List.filter_cons, JValue.isDict, docEntries, ih]

theorem caseCDocs_eq_filter_map (l : List JValue) :
    caseCDocs l = (l.filter JValue.isDict).map (fun v => extractC (docEntries v)) := by
  induction l with
  | nil => rfl
  | cons d ds ih =>
      cases d <;> simp [caseCDocs, List.filter_cons, JValue.isDict, docEntries, ih]

/-- C10: in the flat-documents and bare-list shapes, when the limit does
not truncate, the output has exactly one record per mapping entry of the
sequence, in source order, and non-mapping entries contribute nothing:
it is the per-entry extraction mapped over the mapping entries only. -/
theorem claim_C10_skip_non_mappings (l : List JValue) (limit : Int)
    (h : ((l.filter JValue.isDict).length : Int) ≤ limit) :
    (fetch_documents_normalize (.dict [("documents", .list l)]) limit =
       .ok ((l.filter JValue.isDict).map (fun v => extractB (docEntries v))) ∧
     fetch_documents_normalize (.list l) limit =
       .ok ((l.filter JValue.isDict).map (fun v => extractC (docEntries v)))) ∧
    ((l.filter JValue.isDict).map (fun v => extractB (docEntries v))).length =
      (l.filter JValue.isDict).length ∧
    ((l.filter JValue.isDict).map (fun v => extractC (docEntries v))).length =
      (l.filter JValue.isDict).length := by
  have hb : buildDocuments (.dict [("documents", .list l)]) = .ok (caseBDocs l) := rfl
  have hc : buildDocuments (.list l) = .ok (caseCDocs l) := rfl
  refine ⟨⟨?_, ?_⟩, List.length_map _ _, List.length_map _ _⟩
  · rw [normalize_of_build_ok _ limit _ hb, caseBDocs_eq_filter_map,
        pySlice_of_length_le _ _ (by rw [List.length_map]; exact h)]
  · rw [normalize_of_build_ok _ limit _ hc, caseCDocs_eq_filter_map,
        pySlice_of_length_le _ _ (by rw [List.length_map]; exact h)]

theorem claim_C10_witness :
    ((([JValue.dict [("id", JValue.str "1")], JValue.int 5].filter JValue.isDict).length : Int) ≤ 20) ∧
    (fetch_documents_normalize
        (.dict [("documents", .list [JValue.dict [("id", JValue.str "1")], JValue.int 5])]) 20 =
      .ok (([JValue.dict [("id", JValue.str "1")], JValue.int 5].filter JValue.isDict).map
             (fun v => extractB (docEntries v))) ∧
     fetch_documents_normalize (.list [JValue.dict [("id", JValue.str "1")], JValue.int 5]) 20 =
      .ok (([JValue.dict [("id", JValue.str "1")], JValue.int 5].filter JValue.isDict).map
             (fun v => extractC (docEntries v)))) := by
  refine ⟨by decide, (claim_C10_skip_non_mappings
    [JValue.dict [("id", JValue.str "1")], JValue.int 5] 20 (by decide)).1⟩
